import Mathlib

/-
Verification of the heuristic signal-extraction pipeline of the Pulse
repository (agent_main.py, main.py).  Python functions are shallowly
embedded: text is `String` over Unicode scalar values, Python floats are
modelled as exact rationals (`ℚ`) except where the source takes a square
root, which forces `ℝ`, and Python dictionaries keyed by user id are
modelled as insertion-ordered association lists.
-/

namespace Pulse

/-! ### String primitives shared by all classifiers -/

/-- ASCII case folding of one character; models Python `str.lower` on the
character range the analysed texts use. -/
def lowerChar (c : Char) : Char :=
  if 'A' ≤ c ∧ c ≤ 'Z' then Char.ofNat (c.toNat + 32) else c

/-- Models Python `str.lower` (applied characterwise). -/
def lower (s : String) : String := String.mk (s.toList.map lowerChar)

/-- Substring occurrence on character lists: `listContains pat s` is true
iff `pat` occurs contiguously inside `s`.  Models Python `pat in s`. -/
def listContains (pat : List Char) : List Char → Bool
  | [] => pat.isEmpty
  | c :: rest => List.isPrefixOf pat (c :: rest) || listContains pat rest

/-- Models the Python membership test `pat in s` on strings. -/
def strIn (pat s : String) : Bool := listContains pat.toList s.toList

/-- Models Python slicing `s[:n]` (by code points). -/
def strTake (s : String) (n : ℕ) : String := String.mk (s.toList.take n)

/-- `anyKeyword kws t` models Python `any(kw in t for kw in kws)`. -/
def anyKeyword (kws : List String) (t : String) : Bool := kws.any (fun kw => strIn kw t)

/-- First keyword of `kws` (in list order) occurring in `t`; models a
Python `for kw in kws: if kw in text: ...; break` loop. -/
def firstMatch (kws : List String) (t : String) : Option String :=
  kws.find? (fun kw => strIn kw t)

/-! ### Python `round` -/

/-- Python 3 `round` to an integer: nearest integer, ties to even
(banker's rounding), on an exact rational. -/
def pyRound (q : ℚ) : ℤ :=
  if q - ⌊q⌋ = (1 : ℚ)/2 then (if Even ⌊q⌋ then ⌊q⌋ else ⌊q⌋ + 1) else round q

/-- Python `round(q, 1)`. -/
def pyRound1 (q : ℚ) : ℚ := (pyRound (q * 10) : ℚ) / 10

/-- Python `round(q, 2)`. -/
def pyRound2 (q : ℚ) : ℚ := (pyRound (q * 100) : ℚ) / 100

/-! ### Data model -/

/-- One enriched chat message: `{'user_id', 'user_name', 'text', 'ts'}`.
The Slack timestamp string is modelled by its numeric value, which is how
the source consumes it (`float(x['timestamp'])`). -/
structure Message where
  user_id : String
  user_name : String
  text : String
  ts : ℚ
deriving DecidableEq

/-! ### Sentiment scorer (`agent_main.analyze_sentiment`) -/

def frustration_keywords : List String :=
  ["frustrado", "molesto", "no funciona", "otra vez", "no puedo",
   "bloqueado", "stuck", "no avanza", "cansado", "harto"]

def enthusiasm_keywords : List String :=
  ["genial", "excelente", "perfecto", "listo", "completado",
   "funciona", "logré", "conseguí", "awesome", "great", "🎉", "✅"]

def concern_keywords : List String :=
  ["preocupa", "problema", "riesgo", "urgente", "crítico",
   "atrasado", "retraso", "concerned", "worried", "issue"]

/-- `analyze_sentiment` accepts either raw strings or message records
(`msg.lower() if isinstance(msg, str) else msg.get('text','').lower()`). -/
inductive SentInput where
  | str (s : String)
  | msg (m : Message)
deriving DecidableEq

/-- The lowercased text the sentiment loop works on. -/
def sentText : SentInput → String
  | .str s => lower s
  | .msg m => lower m.text

/-- The four counters of the `sentiment_scores` dictionary. -/
structure SentimentBreakdown where
  frustration : ℕ
  enthusiasm : ℕ
  concern : ℕ
  neutral : ℕ
deriving DecidableEq

/-- The `(category, keyword)` pairs one message appends to
`detected_keywords`: at most one per category, first keyword in list
order, categories tested in the fixed order
frustration, enthusiasm, concern. -/
def msgDetections (text : String) : List (String × String) :=
  (match firstMatch frustration_keywords text with
   | some kw => [("frustración", kw)]
   | none => []) ++
  (match firstMatch enthusiasm_keywords text with
   | some kw => [("entusiasmo", kw)]
   | none => []) ++
  (match firstMatch concern_keywords text with
   | some kw => [("preocupación", kw)]
   | none => [])

/-- The message loop of `analyze_sentiment`: accumulates the category
counters and the detected `(category, keyword)` pairs in encounter
order. -/
def sentScan : List SentInput → SentimentBreakdown × List (String × String)
  | [] => (⟨0, 0, 0, 0⟩, [])
  | m :: rest =>
    let text := sentText m
    let fm := firstMatch frustration_keywords text
    let em := firstMatch enthusiasm_keywords text
    let cm := firstMatch concern_keywords text
    let rec' := sentScan rest
    (⟨(if fm.isSome then 1 else 0) + rec'.1.frustration,
      (if em.isSome then 1 else 0) + rec'.1.enthusiasm,
      (if cm.isSome then 1 else 0) + rec'.1.concern,
      (if fm.isNone && em.isNone && cm.isNone then 1 else 0) + rec'.1.neutral⟩,
     msgDetections text ++ rec'.2)

/-- Python `max(sentiment_scores, key=sentiment_scores.get)`: the first
key (in dictionary insertion order frustration, enthusiasm, concern,
neutral) holding the maximal count, paired with that count. -/
def dominantPair (bd : SentimentBreakdown) : String × ℕ :=
  let s0 := ("frustration", bd.frustration)
  let s1 := if bd.enthusiasm > s0.2 then ("enthusiasm", bd.enthusiasm) else s0
  let s2 := if bd.concern > s1.2 then ("concern", bd.concern) else s1
  if bd.neutral > s2.2 then ("neutral", bd.neutral) else s2

structure SentimentResult where
  overall_score : ℚ
  sentiment_breakdown : SentimentBreakdown
  detected_keywords : List (String × String)
  summary : String
deriving DecidableEq

/-- Embedding of `agent_main.analyze_sentiment`. -/
def analyze_sentiment (messages : List SentInput) : SentimentResult :=
  if messages.length = 0 then
    { overall_score := 50
      sentiment_breakdown := ⟨0, 0, 0, 0⟩
      detected_keywords := []
      summary := "Sin mensajes para analizar" }
  else
    let scan := sentScan messages
    let bd := scan.1
    let total : ℚ := messages.length
    let positive : ℚ := bd.enthusiasm
    let negative : ℚ := (bd.frustration : ℚ) + bd.concern
    let score := 50 + ((positive - negative) / total * 50)
    let clamped := max 0 (min 100 score)
    let dom := dominantPair bd
    let d := dom.1
    let n := dom.2
    let t := messages.length
    { overall_score := pyRound1 clamped
      sentiment_breakdown := bd
      detected_keywords := scan.2.take 10
      summary := s!"Tono predominante: {d} ({n}/{t} mensajes)" }

/-! ### Blocker detector (`agent_main.detect_blockers`) -/

def blocker_keywords : List String :=
  ["bloqueado", "blocked", "stuck", "esperando", "waiting",
   "no puedo avanzar", "necesito que", "dependiendo de"]

def unblock_keywords : List String :=
  ["puedo ayudar", "lo reviso", "me encargo", "ya lo hago",
   "te desbloqueo", "listo", "resuelto"]

/-- `detect_blockers` skips entries that are plain strings
(`if isinstance(msg, str): continue`), so its input mixes strings and
message records. -/
inductive BInput where
  | str (s : String)
  | msg (m : Message)
deriving DecidableEq

structure BlockerRecord where
  who_is_blocked : String
  reason : String
  blocked_by : String
  timestamp : ℚ
deriving DecidableEq

structure UnblockerRecord where
  who_helps : String
  context : String
deriving DecidableEq

/-- The blocker pass of `detect_blockers`, for one input entry. -/
def blockerOf : BInput → Option BlockerRecord
  | .str _ => none
  | .msg m =>
    let text := lower m.text
    if anyKeyword blocker_keywords text then
      some { who_is_blocked := m.user_name
             reason := strTake text 150
             blocked_by :=
               if strIn "<@" text then "Usuario mencionado en el mensaje"
               else if strIn "esperando" text || strIn "waiting" text then
                 "Esperando respuesta externa"
               else "No especificado"
             timestamp := m.ts }
    else none

/-- The unblock pass of `detect_blockers`, for one input entry. -/
def unblockerOf : BInput → Option UnblockerRecord
  | .str _ => none
  | .msg m =>
    let text := lower m.text
    if anyKeyword unblock_keywords text then
      some { who_helps := m.user_name, context := strTake text 100 }
    else none

structure BlockersResult where
  total_blockers : ℕ
  blockers : List BlockerRecord
  unblockers : List UnblockerRecord
  summary : String
deriving DecidableEq

/-- Embedding of `agent_main.detect_blockers`: two independent passes
over the same message list. -/
def detect_blockers (messages : List BInput) : BlockersResult :=
  let blockers := messages.filterMap blockerOf
  let unblockers := messages.filterMap unblockerOf
  let b := blockers.length
  let u := unblockers.length
  { total_blockers := blockers.length
    blockers := blockers
    unblockers := unblockers
    summary := s!"Detectados {b} bloqueos activos y {u} intentos de ayuda" }

/-- The two enriched messages of the claim-C4 scenario (only the text
field matters to the detector; the other fields are arbitrary). -/
def blockerScenario : List BInput :=
  [.msg { user_id := "U1", user_name := "Ana",
          text := "I\x27m blocked waiting for review", ts := 1 },
   .msg { user_id := "U2", user_name := "Luis",
          text := "I\x27ll take care of it, unblocking you now", ts := 2 }]

/-! ### Team health aggregator (`agent_main.calculate_team_health`) -/

/-- One entry of `team_data['messages_per_user']` after the source's
conversion step
`float(x) if isinstance(x,(int,float,str)) and str(x).replace('.','').replace('-','').isdigit() else 0`:
`num q` is an entry that converts to its numeric value `q`, `other` is a
non-numeric entry, which the source converts to `0` (it is not dropped). -/
inductive PEntry where
  | num (q : ℚ)
  | other
deriving DecidableEq

/-- The value the conversion list comprehension produces for one entry. -/
def pentryToNumber : PEntry → ℚ
  | .num q => q
  | .other => 0

/-- `statistics.mean` (only called on lists of length ≥ 2). -/
def pymean (xs : List ℚ) : ℚ := xs.sum / (xs.length : ℚ)

/-- The sample variance underlying `statistics.stdev`. -/
def pyvariance (xs : List ℚ) : ℚ :=
  ((xs.map (fun x => (x - pymean xs) ^ 2)).sum) / ((xs.length : ℚ) - 1)

/-- `statistics.stdev`: real square root of the sample variance. -/
noncomputable def pystdev (xs : List ℚ) : ℝ := Real.sqrt ((pyvariance xs : ℚ) : ℝ)

/-- The workload-distribution component of `calculate_team_health`:
entries are converted to numbers (non-numeric entries become 0), values
`< 0` are dropped, and with at least 2 remaining values the score is
`max(0, 100 − cv·50)` with `cv = stdev/mean` when `mean > 0` else 0;
otherwise the component defaults to 50. -/
noncomputable def workload_distribution_component (entries : List PEntry) : ℝ :=
  if entries.length > 1 then
    let nums := entries.map pentryToNumber
    let valid := nums.filter (fun x => decide (0 ≤ x))
    if valid.length > 1 then
      let mean := pymean valid
      let cv : ℝ := if 0 < mean then pystdev valid / (mean : ℝ) else 0
      max 0 (100 - cv * 50)
    else 50
  else 50

/-- The `team_data` record consumed by `calculate_team_health`
(each `.get` default is part of the field's meaning). -/
structure TeamData where
  total_members : ℕ
  active_members : ℕ
  total_messages : ℕ
  collaborative_messages : ℕ
  messages_per_user : List PEntry
  total_blockers : ℕ
  sentiment_score : ℚ

structure HealthComponents where
  participation : ℝ
  collaboration : ℝ
  workload_distribution : ℝ
  blockers : ℝ
  sentiment : ℝ

structure HealthResult where
  overall_score : ℝ
  status : String
  emoji : String
  components : HealthComponents

open Classical in
/-- Python `round(x, 1)` on a real value, ties to even. -/
noncomputable def pyRound1R (x : ℝ) : ℝ :=
  ((if x * 10 - ⌊x * 10⌋ = (1 : ℝ)/2
    then (if Even ⌊x * 10⌋ then ⌊x * 10⌋ else ⌊x * 10⌋ + 1)
    else round (x * 10)) : ℤ) / 10

open Classical in
/-- Embedding of `agent_main.calculate_team_health` (the redundant
`summary` string, a formatting of the status, emoji and score fields, is
not re-modelled). -/
noncomputable def calculate_team_health (td : TeamData) : HealthResult :=
  let participation : ℝ :=
    if td.total_members > 0
    then ((td.active_members : ℝ) / (td.total_members : ℝ)) * 100 else 0
  let collaboration : ℝ :=
    if td.total_messages > 0
    then min (((td.collaborative_messages : ℝ) / (td.total_messages : ℝ)) * 100) 100
    else 0
  let workload := workload_distribution_component td.messages_per_user
  let blockersComp : ℝ :=
    if td.total_blockers = 0 then 100
    else if td.total_blockers ≤ 2 then 70
    else if td.total_blockers ≤ 5 then 40
    else 20
  let sentimentComp : ℝ := ((td.sentiment_score : ℚ) : ℝ)
  let total := participation * 0.25 + collaboration * 0.20 + workload * 0.20
    + blockersComp * 0.20 + sentimentComp * 0.15
  { overall_score := pyRound1R total
    status :=
      if total ≥ 80 then "EXCELENTE"
      else if total ≥ 60 then "BUENO"
      else if total ≥ 40 then "REGULAR"
      else "CRÍTICO"
    emoji :=
      if total ≥ 80 then "🟢"
      else if total ≥ 60 then "🟡"
      else if total ≥ 40 then "🟠"
      else "🔴"
    components := ⟨participation, collaboration, workload, blockersComp, sentimentComp⟩ }

/-- The number of entries of `messages_per_user` that are valid
non-negative numerics — the quantity claim C1 speaks about, with
non-numeric entries filtered out and not counted. -/
def validNonNegNumericCount (entries : List PEntry) : ℕ :=
  (entries.filter (fun e => match e with | .num q => decide (0 ≤ q) | .other => false)).length

/-- A `team_data` input whose `messages_per_user` holds two non-numeric
entries (zero valid numeric counts). -/
def teamDataTwoNonNumeric : TeamData :=
  { total_members := 10, active_members := 8, total_messages := 50,
    collaborative_messages := 20, messages_per_user := [.other, .other],
    total_blockers := 2, sentiment_score := 65 }

/-- A `team_data` input whose `messages_per_user` holds one numeric entry. -/
def teamDataOneUser : TeamData :=
  { total_members := 10, active_members := 8, total_messages := 50,
    collaborative_messages := 20, messages_per_user := [.num 5],
    total_blockers := 2, sentiment_score := 65 }

/-! ### Agentic orchestrator (`agent_main.run_agentic_analysis`) -/

/-- One tool-use block of a model response: name, input payload and call
id, as consumed by the tool loop. -/
structure ToolUseBlock where
  name : String
  input : String
  id : String

/-- A model response as the loop discriminates it by `stop_reason`:
a tool-use request carrying its blocks, a final answer carrying the
report text, or any other stop reason. -/
inductive AResponse where
  | toolUse (blocks : List ToolUseBlock)
  | endTurn (text : String)
  | otherStop (reason : String)

/-- The conversation messages exchanged with the model. -/
inductive AMsg where
  | user (content : String)
  | assistantToolUse (blocks : List ToolUseBlock)
  | toolResults (results : List (String × String))

/-- Is the response a tool-use request? -/
def AResponse.isToolUse : AResponse → Bool
  | .toolUse _ => true
  | _ => false

/-- The iterative tool-use loop of `run_agentic_analysis`, parameterised
by the model oracle (`anthropic_client.messages.create` as a function of
the conversation so far) and by the tool executor (`process_tool_call`).
The fuel argument is the remaining number of model-call rounds
(`max_iterations − iteration`); the second component of the result
instruments how many model calls were made.  A final answer returns the
report text; exhausting the rounds, or an unexpected stop reason,
returns no report. -/
def agentic_loop (model : List AMsg → AResponse) (exec : ToolUseBlock → String) :
    List AMsg → ℕ → Option String × ℕ
  | _, 0 => (none, 0)
  | msgs, n + 1 =>
    match model msgs with
    | .toolUse blocks =>
      let results := blocks.map (fun b => (b.id, exec b))
      let next := agentic_loop model exec
        (msgs ++ [AMsg.assistantToolUse blocks, AMsg.toolResults results]) n
      (next.1, next.2 + 1)
    | .endTurn text => (some text, 1)
    | .otherStop _ => (none, 1)

/-- Embedding of `agent_main.run_agentic_analysis`: start the
conversation with the initial prompt and run at most
`max_iterations = 10` rounds. -/
def run_agentic_analysis (model : List AMsg → AResponse) (exec : ToolUseBlock → String)
    (initial_prompt : String) : Option String × ℕ :=
  agentic_loop model exec [AMsg.user initial_prompt] 10

/-! ### Markup substitution (`send_report_to_lead`: `report.replace('**', '*')`) -/

/-- Python `s.replace('**', '*')` on the character list: scan left to
right, replacing non-overlapping occurrences of two stars by one. -/
def replaceDoubleStar : List Char → List Char
  | [] => []
  | [c] => [c]
  | a :: b :: rest =>
    if a = '*' ∧ b = '*' then '*' :: replaceDoubleStar rest
    else a :: replaceDoubleStar (b :: rest)

/-- The markup-substitution step applied to a report before sending:
`formatted_report = report.replace('**', '*')`. -/
def format_report (s : String) : String := String.mk (replaceDoubleStar s.toList)

/-- `true` iff the text contains two consecutive stars. -/
def hasDoubleStar : List Char → Bool
  | a :: b :: rest => (a = '*' && b = '*') || hasDoubleStar (b :: rest)
  | _ => false

/-- `true` iff the text contains three consecutive stars. -/
def hasTripleStar : List Char → Bool
  | a :: b :: c :: rest => (a = '*' && b = '*' && c = '*') || hasTripleStar (b :: c :: rest)
  | _ => false

/-! ### Project-update extractor (`main.extract_project_updates`) -/

def update_keywords : List String :=
  ["update", "actualización", "progreso", "avance",
   "completado", "terminado", "listo", "deploy",
   "release", "merged", "aprobado", "bloqueado",
   "pasó a", "movido a", "%"]

structure UpdateRecord where
  user_name : String
  text : String
  timestamp : ℚ
deriving DecidableEq

/-- Does a message qualify as a project update: lowercased text of length
at least 20 containing an update keyword. -/
def isUpdateMessage (m : Message) : Bool :=
  decide (20 ≤ (lower m.text).length) && anyKeyword update_keywords (lower m.text)

/-- Embedding of `main.extract_project_updates`: keep qualifying
messages (original text, not the lowercased copy) and sort them
ascending by timestamp (`updates.sort(key=lambda x: float(x['timestamp']))`,
a stable sort). -/
def extract_project_updates (msgs : List Message) : List UpdateRecord :=
  (msgs.filterMap (fun m =>
    if isUpdateMessage m then some ⟨m.user_name, m.text, m.ts⟩ else none)).mergeSort
    (fun a b => decide (a.timestamp ≤ b.timestamp))

/-! ### Project-health scorer (`main.analyze_project_health`) -/

def positive_keywords : List String :=
  ["completado", "listo", "terminado", "merged", "aprobado", "resuelto",
   "funciona", "done", "finished"]

def negative_keywords : List String :=
  ["bloqueado", "stuck", "problema", "error", "bug", "crítico", "urgente",
   "esperando", "no puedo", "blocked", "issue"]

structure Signal where
  user : String
  keyword : String
  context : String
deriving DecidableEq

/-- The `(user_name, text)` pairs the health loop iterates:
`all_messages = enriched_messages + [{'user_name': ..., 'text': ...} for u in updates]`. -/
def phPairs (msgs : List Message) (updates : List UpdateRecord) : List (String × String) :=
  msgs.map (fun m => (m.user_name, m.text)) ++ updates.map (fun u => (u.user_name, u.text))

/-- The signal records one keyword set produces: every keyword of the set
found in the lowercased text yields one signal (message-major order,
keyword order within a message), with the first 100 characters of the
original text as context. -/
def signalsOf (kws : List String) (pairs : List (String × String)) : List Signal :=
  pairs.flatMap (fun p =>
    (kws.filter (fun kw => strIn kw (lower p.2))).map
      (fun kw => ⟨p.1, kw, strTake p.2 100⟩))

/-- Total number of keyword hits of a set over a pair list. -/
def keywordHits (kws : List String) (pairs : List (String × String)) : ℕ :=
  (pairs.map (fun p => (kws.filter (fun kw => strIn kw (lower p.2))).length)).sum

/-- Result of the project-health scorer (the Spanish field names
`señales_positivas`/`señales_negativas` are transliterated to ASCII). -/
structure ProjectHealth where
  score : ℕ
  senales_positivas : List Signal
  senales_negativas : List Signal
deriving DecidableEq

/-- Embedding of `main.analyze_project_health`: scan messages plus update
records for positive and negative signals; score is
`int((len(pos)/total)*100)` — truncation of the exact ratio — with 75
when no signal was found. -/
def analyze_project_health (msgs : List Message) (updates : List UpdateRecord) :
    ProjectHealth :=
  let pos := signalsOf positive_keywords (phPairs msgs updates)
  let neg := signalsOf negative_keywords (phPairs msgs updates)
  let total := pos.length + neg.length
  { score := if total > 0 then (100 * pos.length) / total else 75
    senales_positivas := pos
    senales_negativas := neg }

/-- A message producing 2 positive signals and 1 negative signal. -/
def healthMsgEx : Message := ⟨"U1", "Ana", "listo, completado; bug", 1⟩

/-! ### Participation-quality classifier (`main.analyze_participation_quality`) -/

def technical_keywords : List String :=
  ["código", "code", "api", "database", "bug", "error", "función",
   "function", "deploy", "merge", "commit"]

def coordination_keywords : List String :=
  ["reunión", "meeting", "deadline", "entrega", "sprint", "sync",
   "stand-up", "standup"]

/-- The per-user counters accumulated by the first loop. -/
structure PartCounts where
  name : String
  total_messages : ℕ
  preguntas : ℕ
  respuestas : ℕ
  tecnico : ℕ
  coordinacion : ℕ
deriving DecidableEq

def initCounts (name : String) : PartCounts := ⟨name, 0, 0, 0, 0, 0⟩

/-- Processing one message for a user's counters: total is always
incremented, the others when the respective test fires. -/
def bumpCounts (c : PartCounts) (text : String) : PartCounts :=
  { c with
    total_messages := c.total_messages + 1
    preguntas := c.preguntas + (if strIn "?" text then 1 else 0)
    respuestas := c.respuestas + (if strIn "<@" text || strIn "@" text then 1 else 0)
    tecnico := c.tecnico + (if anyKeyword technical_keywords (lower text) then 1 else 0)
    coordinacion := c.coordinacion +
      (if anyKeyword coordination_keywords (lower text) then 1 else 0) }

/-- One step of the user dictionary: update the user's entry in place, or
append a fresh entry (Python dict insertion order); the display name is
fixed at creation. -/
def updAssoc : List (String × PartCounts) → Message → List (String × PartCounts)
  | [], m => [(m.user_id, bumpCounts (initCounts m.user_name) m.text)]
  | (k, v) :: rest, m =>
    if k = m.user_id then (k, bumpCounts v m.text) :: rest
    else (k, v) :: updAssoc rest m

/-- The first loop of `analyze_participation_quality`: the per-user
counter dictionary. -/
def buildUserAnalysis (msgs : List Message) : List (String × PartCounts) :=
  msgs.foldl updAssoc []

/-- A finished per-user profile (counters plus classification fields). -/
structure PartProfile where
  name : String
  total_messages : ℕ
  preguntas : ℕ
  respuestas : ℕ
  tecnico : ℕ
  coordinacion : ℕ
  tipo : String
  ratio_preguntas_respuestas : ℚ
  temas_principales : String
deriving DecidableEq

/-- The classification loop of `analyze_participation_quality` for one
user: type tier, question-to-response ratio (the question count itself
when there are no responses), and topic summary. -/
def classifyProfile (c : PartCounts) : PartProfile :=
  let total := c.total_messages
  let tipo :=
    if total < 3 then "Observador"
    else if (c.tecnico : ℚ) / (total : ℚ) > 1/2 then "Facilitador"
    else if (c.coordinacion : ℚ) / (total : ℚ) > 1/2 then "Coordinador"
    else "Contribuidor"
  let ratioPR : ℚ :=
    if c.respuestas > 0 then pyRound2 ((c.preguntas : ℚ) / (c.respuestas : ℚ))
    else (c.preguntas : ℚ)
  let tec := c.tecnico
  let coo := c.coordinacion
  let pre := c.preguntas
  let temas :=
    (if c.tecnico > 0 then [s!"técnico ({tec})"] else []) ++
    (if c.coordinacion > 0 then [s!"coordinación ({coo})"] else []) ++
    (if c.preguntas > 0 then [s!"preguntas ({pre})"] else [])
  { name := c.name, total_messages := c.total_messages, preguntas := c.preguntas,
    respuestas := c.respuestas, tecnico := c.tecnico, coordinacion := c.coordinacion,
    tipo := tipo, ratio_preguntas_respuestas := ratioPR,
    temas_principales := if temas.isEmpty then "general" else String.intercalate ", " temas }

/-- Embedding of `main.analyze_participation_quality`. -/
def analyze_participation_quality (msgs : List Message) : List (String × PartProfile) :=
  (buildUserAnalysis msgs).map (fun p => (p.1, classifyProfile p.2))

/-- A single message holding one question and no mention. -/
def questionOnlyMsg : Message := ⟨"U1", "Ana", "hola?", 1⟩

/-- The profile `analyze_participation_quality` produces for
`questionOnlyMsg`. -/
def questionOnlyProfile : PartProfile :=
  ⟨"Ana", 1, 1, 0, 0, 0, "Observador", 1, "preguntas (1)"⟩

/-! ### Cause inference (`main.infer_causes`) -/

def ausencia_keywords : List String :=
  ["fuera", "ausente", "no estaré", "enfermo", "vacaciones", "permiso", "offline"]

structure Comparison where
  has_baseline : Bool
  direction : String
  diff_percentage : ℚ
deriving DecidableEq

/-- One entry of `users_with_baseline`; `comparison = none` models a
record without a `'comparison'` key (`.get('comparison', {})`). -/
structure BaselineUser where
  name : String
  comparison : Option Comparison
deriving DecidableEq

structure CauseRecord where
  user_name : String
  causa_inferida : String
  evidencia : List String
deriving DecidableEq

/-- The body of the `infer_causes` loop for one user profile: the
`causa` variable is overwritten by later matching rules while
`evidencia` keeps accumulating appends; a record is produced only when
some rule fired.  Rational evidence percentages are rendered exactly
rather than as Python floats. -/
def inferCauseFor (enriched : List Message) (users_with_baseline : List BaselineUser)
    (p : String × PartProfile) : Option (String × CauseRecord) :=
  let a := p.2
  let user_name := a.name
  let step1 : Option String × List String :=
    if a.total_messages = 0 then
      (some "ausencia_total", ["Sin actividad en el período"])
    else
      match users_with_baseline.find? (fun u => u.name == user_name) with
      | some bu =>
        match bu.comparison with
        | some comp =>
          if comp.has_baseline then
            if comp.direction == "por debajo" && decide (comp.diff_percentage > 50) then
              let user_messages :=
                (enriched.filter (fun m => m.user_name == user_name)).map
                  (fun m => lower m.text)
              let dp := comp.diff_percentage
              if user_messages.any (fun t => anyKeyword ausencia_keywords t) then
                (some "ausencia_reportada",
                 [s!"Actividad {dp}% por debajo del promedio", "Usuario reportó ausencia"])
              else
                (some "baja_participacion_inusual",
                 [s!"Actividad {dp}% por debajo del promedio sin explicación"])
            else (none, [])
          else (none, [])
        | none => (none, [])
      | none => (none, [])
  let resp := a.respuestas
  let preg := a.preguntas
  let cond3 := a.respuestas > 5 ∧ a.tecnico > 3
  let cond4 := a.preguntas > 3 ∧ a.respuestas = 0
  let c2 := if cond3 then some "desbloqueando_equipo" else step1.1
  let e2 := step1.2 ++
    (if cond3 then [s!"{resp} respuestas técnicas", "Patrón de resolver dudas del equipo"]
     else [])
  let c3 := if cond4 then some "posiblemente_bloqueado" else c2
  let e3 := e2 ++
    (if cond4 then [s!"{preg} preguntas sin respuestas aparentes", "Buscando ayuda sin obtenerla"]
     else [])
  match c3 with
  | some causa => some (p.1, ⟨user_name, causa, e3⟩)
  | none => none

/-- Embedding of `main.infer_causes`. -/
def infer_causes (enriched : List Message) (user_analysis : List (String × PartProfile))
    (users_with_baseline : List BaselineUser) : List (String × CauseRecord) :=
  user_analysis.filterMap (inferCauseFor enriched users_with_baseline)

/-! ### Lemmas about the shared primitives -/

lemma isNone_eq_not_isSome {α : Type} (o : Option α) : o.isNone = !o.isSome := by
  cases o <;> rfl

lemma firstMatch_isSome (kws : List String) (t : String) :
    (firstMatch kws t).isSome = anyKeyword kws t := by
  rw [Bool.eq_iff_iff]
  simp [firstMatch, anyKeyword, List.find?_isSome, List.any_eq_true]

lemma pyRound_nonneg {q : ℚ} (h : 0 ≤ q) : 0 ≤ pyRound q := by
  unfold pyRound
  have hfl : (0 : ℤ) ≤ ⌊q⌋ ∨ q - ⌊q⌋ ≠ (1 : ℚ)/2 := by
    by_cases htie : q - ⌊q⌋ = (1 : ℚ)/2
    · left
      by_contra hneg
      push_neg at hneg
      have h1 : ⌊q⌋ ≤ -1 := by omega
      have h2 : (⌊q⌋ : ℚ) ≤ -1 := by exact_mod_cast h1
      linarith
    · right; exact htie
  split_ifs with h1 h2
  · rcases hfl with h3 | h3
    · exact h3
    · exact absurd h1 h3
  · rcases hfl with h3 | h3
    · omega
    · exact absurd h1 h3
  · rw [round_eq]
    exact Int.floor_nonneg.mpr (by linarith)

lemma pyRound_le_of_le {q : ℚ} {n : ℤ} (h : q ≤ (n : ℚ)) : pyRound q ≤ n := by
  unfold pyRound
  split_ifs with h1 h2
  · have := Int.floor_le_floor h
    simpa using this
  · have hlt : (⌊q⌋ : ℚ) < (n : ℚ) := by linarith
    have : ⌊q⌋ < n := by exact_mod_cast hlt
    omega
  · rw [round_eq]
    rw [Int.floor_le_iff]
    linarith

lemma pyRound1_bounds {q : ℚ} (h0 : 0 ≤ q) (h1 : q ≤ 100) :
    0 ≤ pyRound1 q ∧ pyRound1 q ≤ 100 := by
  unfold pyRound1
  have hn : 0 ≤ pyRound (q * 10) := pyRound_nonneg (by linarith)
  have hu : pyRound (q * 10) ≤ (1000 : ℤ) := pyRound_le_of_le (by push_cast; linarith)
  constructor
  · have : (0 : ℚ) ≤ (pyRound (q * 10) : ℚ) := by exact_mod_cast hn
    linarith
  · have : (pyRound (q * 10) : ℚ) ≤ 1000 := by exact_mod_cast hu
    linarith

/-! ### Theorems about the sentiment scorer -/

lemma sentScan_spec (msgs : List SentInput) :
    (sentScan msgs).1.frustration
      = (msgs.filter (fun m => anyKeyword frustration_keywords (sentText m))).length ∧
    (sentScan msgs).1.enthusiasm
      = (msgs.filter (fun m => anyKeyword enthusiasm_keywords (sentText m))).length ∧
    (sentScan msgs).1.concern
      = (msgs.filter (fun m => anyKeyword concern_keywords (sentText m))).length ∧
    (sentScan msgs).1.neutral
      = (msgs.filter (fun m => !(anyKeyword frustration_keywords (sentText m)
          || anyKeyword enthusiasm_keywords (sentText m)
          || anyKeyword concern_keywords (sentText m)))).length ∧
    (sentScan msgs).2 = msgs.flatMap (fun m => msgDetections (sentText m)) := by
  induction msgs with
  | nil => simp [sentScan]
  | cons m rest ih =>
    obtain ⟨ih1, ih2, ih3, ih4, ih5⟩ := ih
    refine ⟨?_, ?_, ?_, ?_, ?_⟩ <;>
      simp [sentScan, List.filter_cons, firstMatch_isSome, isNone_eq_not_isSome,
        ih1, ih2, ih3, ih4, ih5] <;>
      split_ifs <;>
      simp_all <;> omega

/-- Claim C2, counterexample: the single message "no funciona" matches the
frustration keyword "no funciona" and the enthusiasm keyword "funciona",
so one message increments two sentiment counters and yields detected
pairs in two categories — refuting the claim that a message contributes
to at most one category. -/
theorem sentiment_one_message_two_categories :
    (analyze_sentiment [.str "no funciona"]).sentiment_breakdown.frustration = 1 ∧
    (analyze_sentiment [.str "no funciona"]).sentiment_breakdown.enthusiasm = 1 ∧
    (analyze_sentiment [.str "no funciona"]).detected_keywords
      = [("frustración", "no funciona"), ("entusiasmo", "funciona")] := by
  decide

/-- Claim C2 (amended): the three keyword sets are tested independently
for every message, each in the fixed order frustration, enthusiasm,
concern; within one category a message contributes at most one keyword
(the first in the category's list), but a single message may increment
several of the three category counters; it counts as neutral exactly
when it matches none of the three sets. -/
theorem sentiment_categories_counted_independently (msgs : List SentInput) :
    (analyze_sentiment msgs).sentiment_breakdown.frustration
      = (msgs.filter (fun m => anyKeyword frustration_keywords (sentText m))).length ∧
    (analyze_sentiment msgs).sentiment_breakdown.enthusiasm
      = (msgs.filter (fun m => anyKeyword enthusiasm_keywords (sentText m))).length ∧
    (analyze_sentiment msgs).sentiment_breakdown.concern
      = (msgs.filter (fun m => anyKeyword concern_keywords (sentText m))).length ∧
    (analyze_sentiment msgs).sentiment_breakdown.neutral
      = (msgs.filter (fun m => !(anyKeyword frustration_keywords (sentText m)
          || anyKeyword enthusiasm_keywords (sentText m)
          || anyKeyword concern_keywords (sentText m)))).length ∧
    (analyze_sentiment msgs).detected_keywords
      = (msgs.flatMap (fun m => msgDetections (sentText m))).take 10 := by
  obtain ⟨h1, h2, h3, h4, h5⟩ := sentScan_spec msgs
  cases msgs with
  | nil => simp [analyze_sentiment]
  | cons m rest =>
    have hne : (m :: rest).length ≠ 0 := by simp
    refine ⟨?_, ?_, ?_, ?_, ?_⟩ <;>
      simp only [analyze_sentiment, if_neg hne] <;>
      simp_all

/-- Claim C7: the sentiment scorer's overall score lies in `[0, 100]` for
every input list: the raw score is clamped to that interval before the
final one-decimal rounding, and the empty-input branch returns 50. -/
theorem sentiment_overall_score_in_range (msgs : List SentInput) :
    0 ≤ (analyze_sentiment msgs).overall_score ∧
    (analyze_sentiment msgs).overall_score ≤ 100 := by
  cases msgs with
  | nil =>
    constructor <;> norm_num [analyze_sentiment]
  | cons m rest =>
    have hne : (m :: rest).length ≠ 0 := by simp
    have hrepr : (analyze_sentiment (m :: rest)).overall_score
        = pyRound1 (max 0 (min 100 (50 +
            ((((sentScan (m :: rest)).1.enthusiasm : ℚ)
              - (((sentScan (m :: rest)).1.frustration : ℚ)
                  + ((sentScan (m :: rest)).1.concern : ℚ)))
              / (((m :: rest).length : ℕ) : ℚ) * 50)))) := rfl
    rw [hrepr]
    apply pyRound1_bounds
    · exact le_max_left _ _
    · exact max_le (by norm_num) (min_le_left _ _)

/-! ### Lemmas and theorems about the project-health scorer -/

lemma signalsOf_length (kws : List String) (pairs : List (String × String)) :
    (signalsOf kws pairs).length = keywordHits kws pairs := by
  unfold signalsOf keywordHits
  rw [List.length_flatMap]
  congr 1
  apply List.map_congr_left
  intro p _
  simp

lemma keywordHits_append (kws : List String) (a b : List (String × String)) :
    keywordHits kws (a ++ b) = keywordHits kws a + keywordHits kws b := by
  unfold keywordHits
  rw [List.map_append, List.sum_append]

lemma keywordHits_perm (kws : List String) {a b : List (String × String)}
    (h : a.Perm b) : keywordHits kws a = keywordHits kws b := by
  unfold keywordHits
  exact (h.map _).sum_eq

/-- Claim C6, counterexample: the message "listo, completado; bug" yields
2 positive signals and 1 negative signal; the code's score is
`int((2/3)*100) = 66` (truncation), while the claimed nearest-integer
rounding gives `round((2/3)*100) = 67`. -/
theorem project_health_score_not_rounded :
    (analyze_project_health [healthMsgEx] []).senales_positivas.length = 2 ∧
    (analyze_project_health [healthMsgEx] []).senales_negativas.length = 1 ∧
    ((analyze_project_health [healthMsgEx] []).score : ℤ)
      ≠ pyRound (((2 : ℚ) / (2 + 1)) * 100) := by
  refine ⟨by decide, by decide, ?_⟩
  have hscore : (analyze_project_health [healthMsgEx] []).score = 66 := by decide
  have hround : pyRound (((2 : ℚ) / (2 + 1)) * 100) = 67 := by
    unfold pyRound
    norm_num [round_eq]
  rw [hscore, hround]
  decide

/-- Claim C6 (amended): with at least one signal, the score is the
truncation `int((pos/(pos+neg))·100)` — the integer part, not the
nearest-integer rounding — of the positive-signal share; with no signal
it is 75. -/
theorem project_health_score_formula (msgs : List Message) (updates : List UpdateRecord) :
    (analyze_project_health msgs updates).score =
      if keywordHits positive_keywords (phPairs msgs updates)
         + keywordHits negative_keywords (phPairs msgs updates) = 0
      then 75
      else (100 * keywordHits positive_keywords (phPairs msgs updates))
           / (keywordHits positive_keywords (phPairs msgs updates)
              + keywordHits negative_keywords (phPairs msgs updates)) := by
  have hp := signalsOf_length positive_keywords (phPairs msgs updates)
  have hn := signalsOf_length negative_keywords (phPairs msgs updates)
  show (if 0 < (signalsOf positive_keywords (phPairs msgs updates)).length
          + (signalsOf negative_keywords (phPairs msgs updates)).length
        then _ else _) = _
  rw [hp, hn]
  by_cases h : keywordHits positive_keywords (phPairs msgs updates)
      + keywordHits negative_keywords (phPairs msgs updates) = 0
  · rw [if_neg (by omega), if_pos h]
  · rw [if_pos (by omega), if_neg h]

/-! ### Lemmas and theorems about the update extractor feeding the scorer -/

lemma update_pairs_eq (msgs : List Message) :
    ((msgs.filterMap (fun m =>
        if isUpdateMessage m then some (⟨m.user_name, m.text, m.ts⟩ : UpdateRecord)
        else none)).map (fun u => (u.user_name, u.text)))
      = (msgs.filter isUpdateMessage).map (fun m => (m.user_name, m.text)) := by
  induction msgs with
  | nil => rfl
  | cons m rest ih =>
    by_cases h : isUpdateMessage m <;>
      simp [List.filterMap_cons, List.filter_cons, h, ih]

lemma extract_project_updates_pairs_perm (msgs : List Message) :
    ((extract_project_updates msgs).map (fun u => (u.user_name, u.text))).Perm
      ((msgs.filter isUpdateMessage).map (fun m => (m.user_name, m.text))) := by
  unfold extract_project_updates
  rw [← update_pairs_eq msgs]
  exact (List.mergeSort_perm _ _).map _

/-- Claim C9: every update record's text is the text of one of the input
messages, and in the health scan each message qualifying as a project
update (length ≥ 20, update keyword present) is scanned twice — once in
the enriched pass, once through its update record — so each of its
positive/negative keyword hits yields two signal records, doubling its
weight relative to non-update messages. -/
theorem project_update_messages_counted_twice (msgs : List Message) :
    ((extract_project_updates msgs).map (fun u => u.text)).all
      (fun t => (msgs.map (fun m => m.text)).contains t) = true ∧
    (analyze_project_health msgs (extract_project_updates msgs)).senales_positivas.length
      = keywordHits positive_keywords (msgs.map (fun m => (m.user_name, m.text)))
        + keywordHits positive_keywords
            ((msgs.filter isUpdateMessage).map (fun m => (m.user_name, m.text))) ∧
    (analyze_project_health msgs (extract_project_updates msgs)).senales_negativas.length
      = keywordHits negative_keywords (msgs.map (fun m => (m.user_name, m.text)))
        + keywordHits negative_keywords
            ((msgs.filter isUpdateMessage).map (fun m => (m.user_name, m.text))) := by
  refine ⟨?_, ?_, ?_⟩
  · rw [List.all_eq_true]
    intro t ht
    rw [List.mem_map] at ht
    obtain ⟨u, hu, rfl⟩ := ht
    have hu2 : u ∈ msgs.filterMap (fun m =>
        if isUpdateMessage m then some (⟨m.user_name, m.text, m.ts⟩ : UpdateRecord)
        else none) := by
      exact ((List.mergeSort_perm _ _).mem_iff).mp hu
    rw [List.mem_filterMap] at hu2
    obtain ⟨m, hm, hfm⟩ := hu2
    by_cases hup : isUpdateMessage m
    · rw [if_pos hup] at hfm
      have : u.text = m.text := by cases hfm; rfl
      rw [this, List.contains_eq_any_beq]
      rw [List.any_eq_true]
      exact ⟨m.text, List.mem_map.mpr ⟨m, hm, rfl⟩, by simp⟩
    · rw [if_neg hup] at hfm
      cases hfm
  · show (signalsOf positive_keywords (phPairs msgs (extract_project_updates msgs))).length = _
    rw [signalsOf_length]
    unfold phPairs
    rw [keywordHits_append]
    rw [keywordHits_perm positive_keywords (extract_project_updates_pairs_perm msgs)]
  · show (signalsOf negative_keywords (phPairs msgs (extract_project_updates msgs))).length = _
    rw [signalsOf_length]
    unfold phPairs
    rw [keywordHits_append]
    rw [keywordHits_perm negative_keywords (extract_project_updates_pairs_perm msgs)]

/-! ### Theorems about the participation-quality classifier -/

/-- Claim C5, counterexample: for the single message "hola?" the user's
profile has 0 responses and 1 question, and its question-to-response
ratio is the question count 1, not the 0 the claim asserts for users
without responses. -/
theorem participation_ratio_not_zero_without_responses :
    ((analyze_participation_quality [questionOnlyMsg]).map
      (fun p => (p.2.respuestas, p.2.ratio_preguntas_respuestas))) = [(0, 1)] ∧
    ((1 : ℚ) ≠ 0) := by
  constructor
  · decide
  · norm_num

/-- Claim C5 (amended): each profile's question-to-response ratio equals
`round(preguntas/respuestas, 2)` when the user has at least one
response, and equals the user's question count (not 0) when the user has
no responses. -/
theorem participation_ratio_formula (msgs : List Message) (uid : String)
    (prof : PartProfile) (h : (uid, prof) ∈ analyze_participation_quality msgs) :
    prof.ratio_preguntas_respuestas =
      if prof.respuestas > 0
      then pyRound2 ((prof.preguntas : ℚ) / (prof.respuestas : ℚ))
      else (prof.preguntas : ℚ) := by
  unfold analyze_participation_quality at h
  rw [List.mem_map] at h
  obtain ⟨⟨k, c⟩, hmem, heq⟩ := h
  have hprof : prof = classifyProfile c := congrArg Prod.snd heq.symm
  subst hprof
  rfl

/-- Witness for the amended claim C5 at the profile of `questionOnlyMsg`. -/
theorem participation_ratio_formula_witness :
    questionOnlyProfile.ratio_preguntas_respuestas =
      if questionOnlyProfile.respuestas > 0
      then pyRound2 ((questionOnlyProfile.preguntas : ℚ) / (questionOnlyProfile.respuestas : ℚ))
      else (questionOnlyProfile.preguntas : ℚ) :=
  participation_ratio_formula [questionOnlyMsg] "U1" questionOnlyProfile (by decide)

/-! ### Theorems about cause inference -/

lemma updAssoc_total_pos (acc : List (String × PartCounts)) (m : Message)
    (h : ∀ p ∈ acc, 1 ≤ p.2.total_messages) :
    ∀ p ∈ updAssoc acc m, 1 ≤ p.2.total_messages := by
  induction acc with
  | nil =>
    intro p hp
    simp only [updAssoc, List.mem_singleton] at hp
    subst hp
    simp [bumpCounts]
  | cons kv rest ih =>
    obtain ⟨k, v⟩ := kv
    intro p hp
    rw [show updAssoc ((k, v) :: rest) m
        = if k = m.user_id then (k, bumpCounts v m.text) :: rest
          else (k, v) :: updAssoc rest m from rfl] at hp
    by_cases hk : k = m.user_id
    · rw [if_pos hk] at hp
      rcases List.mem_cons.mp hp with hp | hp
      · subst hp; simp [bumpCounts]
      · exact h p (List.mem_cons_of_mem _ hp)
    · rw [if_neg hk] at hp
      rcases List.mem_cons.mp hp with hp | hp
      · subst hp; exact h (k, v) (List.mem_cons_self _ _)
      · exact ih (fun q hq => h q (List.mem_cons_of_mem _ hq)) p hp

lemma buildUserAnalysis_total_pos (msgs : List Message) :
    ∀ p ∈ buildUserAnalysis msgs, 1 ≤ p.2.total_messages := by
  unfold buildUserAnalysis
  suffices hgen : ∀ acc, (∀ p ∈ acc, 1 ≤ p.2.total_messages) →
      ∀ p ∈ msgs.foldl updAssoc acc, 1 ≤ p.2.total_messages by
    exact hgen [] (by simp)
  induction msgs with
  | nil => intro acc hacc; simpa using hacc
  | cons m rest ih =>
    intro acc hacc
    rw [List.foldl_cons]
    exact ih _ (updAssoc_total_pos acc m hacc)

lemma inferCauseFor_ne_ausencia_total (enriched : List Message)
    (bs : List BaselineUser) (p : String × PartProfile)
    (hpos : p.2.total_messages ≠ 0) (r : String × CauseRecord)
    (hr : inferCauseFor enriched bs p = some r) :
    r.2.causa_inferida ≠ "ausencia_total" := by
  unfold inferCauseFor at hr
  dsimp only at hr
  rw [if_neg hpos] at hr
  rcases hfind : bs.find? (fun u => u.name == p.2.name) with _ | bu <;>
    rw [hfind] at hr <;> dsimp only at hr
  · split_ifs at hr <;> first | (cases hr; simp) | cases hr
  · rcases hcomp : bu.comparison with _ | comp <;> rw [hcomp] at hr <;>
      dsimp only at hr
    · split_ifs at hr <;> first | (cases hr; simp) | cases hr
    · split_ifs at hr <;> first | (cases hr; simp) | cases hr

/-- Claim C10: every profile the participation classifier produces has
`total_messages ≥ 1` (an entry is created only when a message from that
user is processed, and its counter is incremented at once), so the
zero-messages rule of `infer_causes` never fires on that classifier's
output: no produced cause record carries "ausencia_total". -/
theorem total_absence_cause_unreachable (msgs : List Message)
    (baselines : List BaselineUser) :
    ((analyze_participation_quality msgs).all
      (fun p => decide (1 ≤ p.2.total_messages)) = true) ∧
    ((infer_causes msgs (analyze_participation_quality msgs) baselines).all
      (fun r => !(r.2.causa_inferida == "ausencia_total")) = true) := by
  have hbase := buildUserAnalysis_total_pos msgs
  have hprofiles : ∀ p ∈ analyze_participation_quality msgs, 1 ≤ p.2.total_messages := by
    intro p hp
    unfold analyze_participation_quality at hp
    rw [List.mem_map] at hp
    obtain ⟨⟨k, c⟩, hmem, heq⟩ := hp
    have : p.2 = classifyProfile c := congrArg Prod.snd heq.symm
    rw [this]
    exact hbase (k, c) hmem
  constructor
  · rw [List.all_eq_true]
    intro p hp
    simpa using hprofiles p hp
  · rw [List.all_eq_true]
    intro r hr
    unfold infer_causes at hr
    rw [List.mem_filterMap] at hr
    obtain ⟨p, hp, hfp⟩ := hr
    have hne := inferCauseFor_ne_ausencia_total msgs baselines p
      (by have := hprofiles p hp; omega) r hfp
    simpa using hne

/-! ### Theorems about the agentic orchestrator -/

lemma agentic_loop_all_tool (model : List AMsg → AResponse) (exec : ToolUseBlock → String)
    (h : ∀ ms, (model ms).isToolUse = true) :
    ∀ n msgs, agentic_loop model exec msgs n = (none, n) := by
  intro n
  induction n with
  | zero => intro msgs; rfl
  | succ k ih =>
    intro msgs
    have htool := h msgs
    unfold agentic_loop
    cases hm : model msgs with
    | toolUse blocks => simp [ih]
    | endTurn text => rw [hm] at htool; simp [AResponse.isToolUse] at htool
    | otherStop reason => rw [hm] at htool; simp [AResponse.isToolUse] at htool

/-- Claim C8: for every model oracle that answers every conversation with
a tool-use request (so also for 11 consecutive tool requests), the
orchestrator makes exactly 10 model calls and then stops with no report;
the loop is structurally bounded by `max_iterations = 10`, so it never
runs forever. -/
theorem run_agentic_analysis_round_limit (model : List AMsg → AResponse)
    (exec : ToolUseBlock → String) (prompt : String)
    (h : ∀ ms, (model ms).isToolUse = true) :
    (run_agentic_analysis model exec prompt).1 = none ∧
    (run_agentic_analysis model exec prompt).2 = 10 := by
  unfold run_agentic_analysis
  rw [agentic_loop_all_tool model exec h]
  exact ⟨rfl, rfl⟩

/-- Witness for claim C8 at a concrete always-tool-requesting oracle. -/
theorem run_agentic_analysis_round_limit_witness :
    (run_agentic_analysis (fun _ => .toolUse [⟨"analyze_sentiment", "", "t1"⟩])
      (fun _ => "ok") "analiza el canal").1 = none ∧
    (run_agentic_analysis (fun _ => .toolUse [⟨"analyze_sentiment", "", "t1"⟩])
      (fun _ => "ok") "analiza el canal").2 = 10 :=
  run_agentic_analysis_round_limit _ _ _ (fun _ => rfl)

/-! ### Theorems about the team health aggregator -/

/-- Claim C1, counterexample: a `messages_per_user` list of two
non-numeric entries carries zero valid non-negative numeric counts, yet
the workload-distribution component is 100, not 50 — the source converts
non-numeric entries to 0 and keeps them, so the two zeros pass the
length-≥-2 gate, give mean 0, hence cv 0 and score 100. -/
theorem workload_nonnumeric_entries_counterexample :
    validNonNegNumericCount teamDataTwoNonNumeric.messages_per_user < 2 ∧
    (calculate_team_health teamDataTwoNonNumeric).components.workload_distribution ≠ 50 := by
  constructor
  · decide
  · have h : (calculate_team_health teamDataTwoNonNumeric).components.workload_distribution
        = workload_distribution_component [.other, .other] := rfl
    rw [h]
    have h100 : workload_distribution_component [.other, .other] = 100 := by
      unfold workload_distribution_component
      norm_num [pentryToNumber, pymean, List.filter]
    rw [h100]
    norm_num

/-- Claim C1 (amended): the workload-distribution component computed by
`calculate_team_health` equals exactly 50 when the `messages_per_user`
list has fewer than 2 entries, or when fewer than 2 values remain after
the conversion step — which turns non-numeric entries into 0 and keeps
them — drops the values below 0. -/
theorem workload_component_defaults_to_50 (td : TeamData)
    (h : td.messages_per_user.length ≤ 1 ∨
      ((td.messages_per_user.map pentryToNumber).filter
        (fun x => decide (0 ≤ x))).length ≤ 1) :
    (calculate_team_health td).components.workload_distribution = 50 := by
  have hrepr : (calculate_team_health td).components.workload_distribution
      = workload_distribution_component td.messages_per_user := rfl
  rw [hrepr]
  unfold workload_distribution_component
  rcases h with h | h
  · rw [if_neg (by omega)]
  · by_cases hl : td.messages_per_user.length > 1
    · rw [if_pos hl]
      simp only []
      rw [if_neg (by omega)]
    · rw [if_neg hl]

/-- Witness for the amended claim C1: a single numeric per-user count. -/
theorem workload_component_defaults_to_50_witness :
    (calculate_team_health teamDataOneUser).components.workload_distribution = 50 :=
  workload_component_defaults_to_50 teamDataOneUser (Or.inl (by decide))

/-! ### Lemmas about the markup substitution -/

lemma replaceDoubleStar_cons (c : Char) (l : List Char) :
    ∃ t, replaceDoubleStar (c :: l) = c :: t := by
  cases l with
  | nil => exact ⟨[], rfl⟩
  | cons b rest =>
    by_cases h : c = '*' ∧ b = '*'
    · refine ⟨replaceDoubleStar rest, ?_⟩
      obtain ⟨h1, h2⟩ := h
      subst h1; subst h2
      simp [replaceDoubleStar]
    · exact ⟨replaceDoubleStar (b :: rest), by simp only [replaceDoubleStar, if_neg h]⟩

lemma hasTripleStar_cons_of {l : List Char} (x : Char) (h : hasTripleStar l = true) :
    hasTripleStar (x :: l) = true := by
  match l, h with
  | a :: b :: rest, h =>
    simp only [hasTripleStar, Bool.or_eq_true] at h ⊢
    tauto

lemma hasTripleStar_tail {x : Char} {l : List Char} (h : hasTripleStar (x :: l) = false) :
    hasTripleStar l = false := by
  by_contra hc
  rw [Bool.not_eq_false] at hc
  rw [hasTripleStar_cons_of x hc] at h
  exact absurd h (by simp)

lemma replace_of_no_double (l : List Char) (h : hasDoubleStar l = false) :
    replaceDoubleStar l = l := by
  induction l using replaceDoubleStar.induct with
  | case1 => rfl
  | case2 c => rfl
  | case3 a b rest hs ih =>
    simp only [hasDoubleStar, Bool.or_eq_false_iff, Bool.and_eq_false_iff] at h
    exact absurd hs (by
      rcases h.1 with h1 | h1 <;> simp [decide_eq_false_iff_not] at h1 <;> tauto)
  | case4 a b rest hs ih =>
    simp only [hasDoubleStar, Bool.or_eq_false_iff] at h
    simp only [replaceDoubleStar, if_neg hs]
    rw [ih h.2]

lemma no_double_after_replace (l : List Char) (h : hasTripleStar l = false) :
    hasDoubleStar (replaceDoubleStar l) = false := by
  induction l using replaceDoubleStar.induct with
  | case1 => rfl
  | case2 c => rfl
  | case3 a b rest hs ih =>
    simp only [replaceDoubleStar, if_pos hs]
    cases rest with
    | nil => rfl
    | cons c rest' =>
      have hc : c ≠ '*' := by
        intro hcs
        rw [hs.1, hs.2, hcs] at h
        simp [hasTripleStar] at h
      have htail : hasTripleStar (c :: rest') = false := by
        rw [hs.1, hs.2] at h
        exact hasTripleStar_tail (hasTripleStar_tail h)
      obtain ⟨t, ht⟩ := replaceDoubleStar_cons c rest'
      rw [ht]
      have hdt : hasDoubleStar (c :: t) = false := ht ▸ ih htail
      simp only [hasDoubleStar, Bool.or_eq_false_iff, Bool.and_eq_false_iff]
      refine ⟨Or.inr ?_, hdt⟩
      simpa using hc
  | case4 a b rest hs ih =>
    simp only [replaceDoubleStar, if_neg hs]
    have htail : hasTripleStar (b :: rest) = false := hasTripleStar_tail h
    obtain ⟨t, ht⟩ := replaceDoubleStar_cons b rest
    rw [ht]
    have hdt : hasDoubleStar (b :: t) = false := ht ▸ ih htail
    simp only [hasDoubleStar, Bool.or_eq_false_iff, Bool.and_eq_false_iff]
    constructor
    · by_cases hb : b = '*'
      · left
        have : ¬ (a = '*') := fun ha => hs ⟨ha, hb⟩
        simpa using this
      · right
        simpa using hb
    · exact hdt

/-! ### Theorems about the markup substitution -/

/-- Claim C3, counterexample: on the report text `"***"` one application
of the substitution yields `"**"` and a second yields `"*"`, so applying
it twice differs from applying it once — the substitution is not
idempotent on every report text. -/
theorem format_report_not_idempotent_on_triple_star :
    format_report (format_report "***") ≠ format_report "***" := by
  decide

/-- Claim C3 (amended): the substitution replacing every occurrence of
`**` by `*` is idempotent on every report text that contains no three
consecutive asterisks; on such a text one application removes all
double stars, so a second application changes nothing. -/
theorem format_report_idempotent_of_no_triple_star (s : String)
    (h : hasTripleStar s.toList = false) :
    format_report (format_report s) = format_report s := by
  unfold format_report
  have h2 : hasDoubleStar (replaceDoubleStar s.toList) = false :=
    no_double_after_replace _ h
  have h3 : (String.mk (replaceDoubleStar s.toList)).toList
      = replaceDoubleStar s.toList := rfl
  rw [h3, replace_of_no_double _ h2]

/-- Witness for the amended claim C3 at a concrete report text. -/
theorem format_report_idempotent_witness :
    hasTripleStar ("**Resumen** del *equipo*").toList = false ∧
    format_report (format_report "**Resumen** del *equipo*")
      = format_report "**Resumen** del *equipo*" :=
  ⟨by decide, format_report_idempotent_of_no_triple_star _ (by decide)⟩

/-! ### Theorems about the blocker detector -/

/-- Claim C4, counterexample: on the scenario's two messages the detector
returns 1 blocker record but 0 unblocker records, not 1 of each — the
unblock keyword list is Spanish-only and none of its entries occurs in
"I'll take care of it, unblocking you now". -/
theorem detect_blockers_scenario_not_one_one :
    ¬ ((detect_blockers blockerScenario).blockers.length = 1 ∧
       (detect_blockers blockerScenario).unblockers.length = 1) := by
  decide

/-- Claim C4 (amended): on the scenario's two enriched messages the
detector returns exactly 1 blocker record (the first message matches the
blocker keywords "blocked" and "waiting") and exactly 0 unblocker
records (no unblock keyword occurs in either message). -/
theorem detect_blockers_scenario_one_blocker_zero_unblockers :
    (detect_blockers blockerScenario).blockers.length = 1 ∧
    (detect_blockers blockerScenario).unblockers.length = 0 := by
  decide

end Pulse
